import Mathlib

/-!
Shallow embedding of the dynamic tool-routing agent of this repository
(`src/mcp_server_.py`, with the duplicated client in `src/agents.py` and the
two stdio tool servers `src/mcp_server.py` and `src/server/weather_server.py`).

Conventions of the embedding:
  * Python dicts become ordered association lists (`List (String × _)`), with
    dict assignment modelled by in-place replace-or-append (`dictInsert`).
  * JSON argument values are modelled by `JValue`; the claims only exercise
    scalar values, so containers are not represented.
  * Awaited external effects (the LLM call with its parse, the stdio
    connection and tool call, HTTP fetches inside the tool servers) enter as
    explicit `Except String _` outcome parameters: `Except.ok` is the value
    the `await`/`try` body produced, `Except.error` the message of the raised
    exception that the surrounding handler observes.
  * A Python function that can raise an exception past its own body is
    modelled as returning `Except String _`, where `Except.error` is the
    uncaught exception.
-/

deriving instance DecidableEq for Except

namespace MCPAgent

/-- A JSON scalar value, as passed around in tool-argument dictionaries. -/
inductive JValue where
  | jstr (s : String)
  | jint (n : Int)
  | jbool (b : Bool)
  | jnull
  deriving DecidableEq

/-- Python str() rendering of a `JValue` (used by f-string interpolation in
the tool servers). -/
def pyStr : JValue → String
  | JValue.jstr s => s
  | JValue.jint n => toString n
  | JValue.jbool true => "True"
  | JValue.jbool false => "False"
  | JValue.jnull => "None"

/-- Python truthiness of an optional value (`if not city:`): absent, empty
string, zero, False and None are falsy. -/
def pyFalsy : Option JValue → Bool
  | none => true
  | some (JValue.jstr s) => s = ""
  | some (JValue.jint n) => n = 0
  | some (JValue.jbool b) => b = false
  | some JValue.jnull => true

/-- Ordered-dict lookup (`d[k]` / `d.get(k)`). -/
def dictLookup (d : List (String × JValue)) (k : String) : Option JValue :=
  match d with
  | [] => none
  | (k₀, v₀) :: rest => if k₀ = k then some v₀ else dictLookup rest k

/-- Ordered-dict assignment `d[k] = v`: replace in place if the key exists,
otherwise append, as Python dicts preserve insertion order. -/
def dictInsert (d : List (String × JValue)) (k : String) (v : JValue) :
    List (String × JValue) :=
  match d with
  | [] => [(k, v)]
  | (k₀, v₀) :: rest =>
    if k₀ = k then (k, v) :: rest else (k₀, v₀) :: dictInsert rest k v

/-- Python `k in d`. -/
def dictContains (d : List (String × JValue)) (k : String) : Bool :=
  (dictLookup d k).isSome

/-- Python `d.get(k, dflt)`. -/
def dictGetD (d : List (String × JValue)) (k : String) (dflt : JValue) : JValue :=
  (dictLookup d k).getD dflt

/-- Helper for `pySplit`: the first list accumulates the current word in
reverse. -/
def pySplitGo (cur : List Char) : List Char → List String
  | [] => if cur.isEmpty then [] else [String.mk cur.reverse]
  | c :: rest =>
    if c.isWhitespace then
      (if cur.isEmpty then [] else [String.mk cur.reverse]) ++ pySplitGo [] rest
    else
      pySplitGo (c :: cur) rest

/-- Python `message.split()`: split on whitespace runs, discarding empties. -/
def pySplit (s : String) : List String :=
  pySplitGo [] s.data

/-- Python `s.lower()` (per-character lowercasing). -/
def strLower (s : String) : String :=
  String.mk (s.data.map Char.toLower)

/-- Python `sep.join(xs)`. -/
def pyJoin (sep : String) : List String → String
  | [] => ""
  | [x] => x
  | x :: y :: rest => x ++ sep ++ pyJoin sep (y :: rest)

/-- Python `word.strip("?.,!")`: drop leading and trailing characters drawn
from the given set. -/
def stripChars (cs : List Char) (s : String) : String :=
  String.mk (((s.data.dropWhile cs.contains).reverse.dropWhile cs.contains).reverse)

/-- Helper for `pyTitle`: the Bool records whether the previous character was
alphabetic (cased). -/
def pyTitleGo : Bool → List Char → List Char
  | _, [] => []
  | prevAlpha, c :: rest =>
    (if prevAlpha then c.toLower else c.toUpper) :: pyTitleGo c.isAlpha rest

/-- Python `s.title()`: a character following a non-cased character is
uppercased, any other alphabetic character is lowercased. -/
def pyTitle (s : String) : String :=
  String.mk (pyTitleGo false s.data)

/-- Contiguous-sublist test on character lists. -/
def listInfix (needle : List Char) : List Char → Bool
  | [] => needle.isEmpty
  | c :: tail => needle.isPrefixOf (c :: tail) || listInfix needle tail

/-- Python substring test `needle in hay`. -/
def strContains (hay needle : String) : Bool :=
  listInfix needle.data hay.data

/-- A word character for the purpose of a regex word boundary. -/
def isWordChar (c : Char) : Bool :=
  c.isAlphanum || c = '_'

/-- Left-to-right scan implementing `re.findall` of an integer literal bounded
by word boundaries on both sides. The first Bool records whether the previous
character was a word character; the Option accumulates the digit run in
progress (reversed) when its left edge was a boundary. -/
def intLitScan : Bool → Option (List Char) → List Char → List String
  | _, cur, [] =>
    match cur with
    | some run => [String.mk run.reverse]
    | none => []
  | prevWord, cur, c :: rest =>
    if c.isDigit then
      match cur with
      | some run => intLitScan true (some (c :: run)) rest
      | none =>
        if prevWord then intLitScan true none rest
        else intLitScan true (some [c]) rest
    else
      match cur with
      | some run =>
        (if isWordChar c then [] else [String.mk run.reverse]) ++
          intLitScan (isWordChar c) none rest
      | none => intLitScan (isWordChar c) none rest

/-- All whole-word integer literals of the text, left to right. -/
def pyFindIntLits (s : String) : List String :=
  intLitScan false none s.data

/-- Python `int(s)` on a non-empty string of digits. -/
def parseDigits (s : String) : Int :=
  Int.ofNat (s.data.foldl (fun acc c => acc * 10 + (c.toNat - '0'.toNat)) 0)

/-- Per-parameter metadata of a tool input schema. Only the fields the agent
code reads are modelled: `param_info.get('type')` and the optional
`param_info['default']` (descriptions are only spliced into prompt text). -/
structure ParamInfo where
  type : Option String := none
  default : Option JValue := none
  deriving DecidableEq

/-- A tool input schema: ordered `properties` mapping and the `required`
name list. -/
structure InputSchema where
  properties : List (String × ParamInfo) := []
  required : List String := []
  deriving DecidableEq

/-- A discovered tool descriptor, as stored in `all_tools`. -/
structure Tool where
  name : String
  description : Option String := none
  inputSchema : InputSchema := {}
  deriving DecidableEq

/-- The city-extraction word loop of `_basic_argument_extraction`: the first
word equal (case-insensitively) to "in", "for" or "at" that is not the last
word yields the following word, stripped of "?.,!" and title-cased. -/
def findCityAfterPrep : List String → Option String
  | w :: next :: rest =>
    if strLower w = "in" || strLower w = "for" || strLower w = "at" then
      some (pyTitle (stripChars ['?', '.', ',', '!'] next))
    else findCityAfterPrep (next :: rest)
  | _ => none

/-- One iteration of the `for param_name, param_info in properties.items()`
loop of `LLMPoweredMCPAgent._basic_argument_extraction`. -/
def basicExtractOne (message : String) (arguments : List (String × JValue)) :
    String × ParamInfo → List (String × JValue)
  | (name, info) =>
  if info.type = some "string" then
    if strContains (strLower name) "city" then
      let arguments₁ :=
        match findCityAfterPrep (pySplit message) with
        | some v => dictInsert arguments name (JValue.jstr v)
        | none => arguments
      if dictContains arguments₁ name then arguments₁
      else dictInsert arguments₁ name (JValue.jstr "London")
    else if strContains (strLower name) "query" then
      dictInsert arguments name (JValue.jstr message)
    else
      dictInsert arguments name (JValue.jstr message)
  else if info.type = some "integer" then
    match pyFindIntLits message with
    | n :: _ => dictInsert arguments name (JValue.jint (parseDigits n))
    | [] =>
      match info.default with
      | some d => dictInsert arguments name d
      | none => arguments
  else
    arguments

/-- The loop of `_basic_argument_extraction`, threading the arguments dict. -/
def basicExtractGo (message : String) (arguments : List (String × JValue)) :
    List (String × ParamInfo) → List (String × JValue)
  | [] => arguments
  | p :: rest => basicExtractGo message (basicExtractOne message arguments p) rest

/-- `LLMPoweredMCPAgent._basic_argument_extraction`: the LLM-free fallback
argument extractor. -/
def basic_argument_extraction (message : String)
    (properties : List (String × ParamInfo)) : List (String × JValue) :=
  basicExtractGo message [] properties

/-- The structured selection the agent works with: the JSON object with keys
"server", "tool", "reasoning" (the source dereferences all three inside its
`try`, so a successful outcome has all of them). -/
structure Selection where
  server : String
  tool : String
  reasoning : String
  deriving DecidableEq

/-- `LLMPoweredMCPAgent.select_tool`. The whole `try` body — awaiting the LLM,
stripping markdown fences, `json.loads`, and reading the three keys — is an
external effect and enters as the `decider` outcome: `Except.ok` is a parsed
selection, `Except.error` the message of whatever was raised. The `except`
branch indexes `list(self.all_tools.keys())[0]` and then `[...][0]['name']`;
on an empty list that raises IndexError, which escapes `select_tool`, so the
result type is `Except`. -/
def select_tool (all_tools : List (String × List Tool))
    (decider : Except String Selection) : Except String Selection :=
  match decider with
  | Except.ok sel => Except.ok sel
  | Except.error e =>
    match all_tools with
    | [] => Except.error "IndexError: list index out of range"
    | (firstServer, tools) :: _ =>
      match tools with
      | [] => Except.error "IndexError: list index out of range"
      | t :: _ =>
        Except.ok ⟨firstServer, t.name, "Fallback due to error: " ++ e⟩

/-- `self.all_tools.get(server_name, [])`. -/
def serverTools (all_tools : List (String × List Tool)) (server : String) :
    List Tool :=
  match all_tools.find? (fun p => p.1 = server) with
  | some p => p.2
  | none => []

/-- The schema-lookup loop opening `LLMPoweredMCPAgent.extract_arguments`:
the first tool of the named server with the requested name contributes its
`inputSchema`. -/
def findToolSchema (all_tools : List (String × List Tool))
    (serverName toolName : String) : Option InputSchema :=
  ((serverTools all_tools serverName).find? (fun t => t.name = toolName)).map
    Tool.inputSchema

/-- `LLMPoweredMCPAgent.extract_arguments`. The LLM call with its JSON parse
enters as the `decider` outcome. When the schema is absent or has no
properties the function returns the empty dict before consulting the decider;
a parsed decider object is returned as-is; any raised error falls back to
`_basic_argument_extraction`. The function itself never raises. -/
def extract_arguments (all_tools : List (String × List Tool))
    (user_message toolName serverName : String)
    (decider : Except String (List (String × JValue))) :
    List (String × JValue) :=
  match findToolSchema all_tools serverName toolName with
  | none => []
  | some schema =>
    if schema.properties = [] then []
    else
      match decider with
      | Except.ok args => args
      | Except.error _ => basic_argument_extraction user_message schema.properties

/-- `LLMPoweredMCPAgent.execute_tool`. `clients` is the key set of
`mcp_manager.clients`; `callOutcome` is the body of the `try` (connecting and
calling the tool): `Except.ok` the returned text, `Except.error` the raised
message. A missing client key raises KeyError (str of which quotes the key),
and every exception is caught and rendered into the returned string. -/
def execute_tool (clients : List String) (callOutcome : Except String String)
    (serverName : String) : String :=
  if clients.contains serverName then
    match callOutcome with
    | Except.ok text => text
    | Except.error e => "❌ Error executing tool: " ++ e
  else
    "❌ Error executing tool: " ++ "\x27" ++ serverName ++ "\x27"

/-- The dict returned by `LLMPoweredMCPAgent.run`. -/
structure DispatchResult where
  response : String
  server_used : String
  tool_used : String
  arguments_used : List (String × JValue)
  reasoning : String
  deriving DecidableEq

/-- The two Decider interactions a single `run` performs, as outcome values:
the tool-selection attempt and the argument-extraction attempt. -/
structure DeciderBehavior where
  selectOutcome : Except String Selection
  extractOutcome : Except String (List (String × JValue))

/-- `LLMPoweredMCPAgent.run`: select, extract, execute, and shape the result
dict. `call` maps the chosen (server, tool, arguments) to the outcome of the
connect-and-call attempt inside `execute_tool`. `run` itself catches nothing,
so an exception escaping `select_tool` escapes `run` (`Except.error`). -/
def run (all_tools : List (String × List Tool)) (clients : List String)
    (decider : DeciderBehavior)
    (call : String → String → List (String × JValue) → Except String String)
    (user_message : String) : Except String DispatchResult :=
  match select_tool all_tools decider.selectOutcome with
  | Except.error e => Except.error e
  | Except.ok sel =>
    let arguments :=
      extract_arguments all_tools user_message sel.tool sel.server
        decider.extractOutcome
    let result := execute_tool clients (call sel.server sel.tool arguments)
        sel.server
    Except.ok
      { response := result
        server_used := sel.server
        tool_used := sel.tool
        arguments_used := arguments
        reasoning := sel.reasoning }

/-- One item of an MCP tool result's `content` list: `text` is `some s` when
the item has a `text` attribute. -/
structure ContentItem where
  text : Option String
  deriving DecidableEq

/-- The result-shaping tail of `MCPClient.call_tool` (identical in
`src/mcp_server_.py` and `src/agents.py`): join the `text` of the items that
have one, or the sentinel when the content list is empty/absent. -/
def call_tool_result_text (content : List ContentItem) : String :=
  if !content.isEmpty then
    pyJoin "\n" (content.filterMap ContentItem.text)
  else
    "No response from tool"

/-- The mutable state built up by the discovery loop of
`LLMPoweredMCPAgent.initialize`. -/
structure DiscoveryState where
  all_tools : List (String × List Tool)
  tool_to_server : List (String × String)
  failures : List String
  total_tools : Nat
  deriving DecidableEq

/-- `tool_to_server[name] = server` assignment (last write wins). -/
def toolServerInsert (m : List (String × String)) (k v : String) :
    List (String × String) :=
  match m with
  | [] => [(k, v)]
  | (k₀, v₀) :: rest =>
    if k₀ = k then (k, v) :: rest else (k₀, v₀) :: toolServerInsert rest k v

/-- The per-server loop body of `LLMPoweredMCPAgent.initialize`. Each server's
connect-and-list attempt enters as an `Except` outcome. Server names are the
keys of the `clients` dict, hence pairwise distinct, so the dict assignment
`all_tools[server_name] = tools` is modelled as an append of a fresh key. A
failure only appends the printed failure record. -/
def discoverGo (state : DiscoveryState) :
    List (String × Except String (List Tool)) → DiscoveryState
  | [] => state
  | (serverName, outcome) :: rest =>
    match outcome with
    | Except.ok tools =>
      discoverGo
        { state with
          all_tools := state.all_tools ++ [(serverName, tools)]
          tool_to_server :=
            tools.foldl (fun m t => toolServerInsert m t.name serverName)
              state.tool_to_server
          total_tools := state.total_tools + tools.length }
        rest
    | Except.error e =>
      discoverGo
        { state with
          failures := state.failures ++ [serverName ++ ": Failed - " ++ e] }
        rest

/-- `LLMPoweredMCPAgent.initialize`: the full discovery pass over the
configured servers, in configuration order. -/
def discoverAllTools (servers : List (String × Except String (List Tool))) :
    DiscoveryState :=
  discoverGo ⟨[], [], [], 0⟩ servers

/-- Servers whose discovery succeeded, with their tools, in order. -/
def successEntries (servers : List (String × Except String (List Tool))) :
    List (String × List Tool) :=
  match servers with
  | [] => []
  | (n, Except.ok ts) :: rest => (n, ts) :: successEntries rest
  | (_, Except.error _) :: rest => successEntries rest

/-- The recorded per-server discovery failures, in order. -/
def failureEntries (servers : List (String × Except String (List Tool))) :
    List String :=
  match servers with
  | [] => []
  | (_, Except.ok _) :: rest => failureEntries rest
  | (n, Except.error e) :: rest => (n ++ ": Failed - " ++ e) :: failureEntries rest

/-- Sum of the successful servers' tool counts. -/
def successToolCount (servers : List (String × Except String (List Tool))) :
    Nat :=
  match servers with
  | [] => 0
  | (_, Except.ok ts) :: rest => ts.length + successToolCount rest
  | (_, Except.error _) :: rest => successToolCount rest

/-- Total number of discovered tools in a catalog. -/
def catalogToolCount (catalog : List (String × List Tool)) : Nat :=
  (catalog.map (fun p => p.2.length)).sum

/-- Whether the first server of the catalog (the one the selection fallback
indexes) has at least one tool. -/
def firstServerHasTool : List (String × List Tool) → Bool
  | (_, _ :: _) :: _ => true
  | _ => false

/-- A text content item produced by a tool server handler
(`TextContent(type="text", text=...)`). -/
structure TextContent where
  text : String
  deriving DecidableEq

/-- The static response template of the `get_pesticide_seed_info` branch of
`src/mcp_server.py`, around the interpolated query value. -/
def pesticide_seed_response (query : JValue) : String :=
  "🌾 Welcome to Pesticide and Seed Information Service! 🌱\n" ++
  "━━━━━━━━━━━━━━━━━━━━━━━━━━━━━━━━━━━━━━━━━━━━━━━━\n\n" ++
  "Query: " ++ pyStr query ++ "\n\n" ++
  "I will fetch comprehensive information about seeds and pesticides for you!\n\n" ++
  "📋 Services Available:\n" ++
  "  • Seed recommendations for different crops\n" ++
  "  • Organic and chemical pesticide information\n" ++
  "  • Seasonal planting guides\n" ++
  "  • Pest identification and treatment\n" ++
  "  • Fertilizer recommendations\n" ++
  "  • Crop rotation strategies\n\n" ++
  "🔜 Coming Soon:\n" ++
  "  - Real-time pest alerts\n" ++
  "  - Seed supplier database\n" ++
  "  - Pesticide safety guidelines\n" ++
  "  - Crop yield predictions\n\n" ++
  "💡 Tip: Ask me about specific crops, pests, or farming techniques!"

/-- The names registered by `list_tools` in `src/mcp_server.py`. -/
def mcpServerToolNames : List String :=
  ["get_current_weather", "get_placeholder_posts", "get_pesticide_seed_info"]

/-- The `call_tool` handler of `src/mcp_server.py`. The two network-bound
branches enter as outcome parameters (`Except.ok` the formatted text the
`try` body built, `Except.error` the raised message). -/
def mcp_server_call_tool (weatherOutcome postsOutcome : Except String String)
    (name : String) (arguments : List (String × JValue)) : List TextContent :=
  if name = "get_current_weather" then
    match weatherOutcome with
    | Except.ok txt => [⟨txt⟩]
    | Except.error e => [⟨"Error fetching weather: " ++ e⟩]
  else if name = "get_placeholder_posts" then
    match postsOutcome with
    | Except.ok txt => [⟨txt⟩]
    | Except.error e => [⟨"Error fetching posts: " ++ e⟩]
  else if name = "get_pesticide_seed_info" then
    [⟨pesticide_seed_response (dictGetD arguments "query"
        (JValue.jstr "general information"))⟩]
  else
    [⟨"Unknown tool: " ++ name⟩]

/-- The names registered by `list_tools` in `src/server/weather_server.py`. -/
def weatherServerToolNames : List String :=
  ["get_current_weather", "get_placeholder_posts", "citrus_pests_diseases"]

/-- The wrapper the `citrus_pests_diseases` branch builds around the
`CITRUS_KNOWLEDGE_BASE` constant (the bulky constant text itself enters as
the `kb` parameter). -/
def citrus_response (kb : String) : String :=
  "ğŸŒ¾ CITRUS FARMING KNOWLEDGE BASE - Indian Farm Conditions\n\n" ++
  "Below is comprehensive information about citrus pest management, disease control, and pesticide practices for Mosambi (Sweet Lemon) cultivation in India:\n\n" ++
  kb ++
  "\n\n---\n\n" ++
  "This knowledge base covers:\n" ++
  "âœ“ Major pests: Citrus Psylla, Leaf Miner, Aphids, Mealybugs, Red Spider Mites\n" ++
  "âœ“ Diseases: Citrus Canker, Phytophthora (Root Rot), Powdery Mildew\n" ++
  "âœ“ Pesticides and fungicides with dosages\n" ++
  "âœ“ Application practices and timing\n" ++
  "âœ“ Safety and pre-harvest intervals\n" ++
  "âœ“ Integrated Pest Management (IPM)\n" ++
  "âœ“ Resistance management strategies\n\n" ++
  "Use this information to answer questions about citrus farming in Indian farm conditions.\n"

/-- The `call_tool` handler of `src/server/weather_server.py` (whose string
literals carry the mojibake prefix characters exactly as in the file). The
weather branch first rejects a falsy `city`; network-bound bodies enter as
outcome parameters; `kb` is the `CITRUS_KNOWLEDGE_BASE` constant. -/
def weather_server_call_tool
    (weatherOutcome postsOutcome : Except String String) (kb : String)
    (name : String) (arguments : List (String × JValue)) : List TextContent :=
  if name = "get_current_weather" then
    if pyFalsy (dictLookup arguments "city") then
      [⟨"âŒ Error: City name is required"⟩]
    else
      match weatherOutcome with
      | Except.ok txt => [⟨txt⟩]
      | Except.error e => [⟨"âŒ Error: " ++ e⟩]
  else if name = "get_placeholder_posts" then
    match postsOutcome with
    | Except.ok txt => [⟨txt⟩]
    | Except.error e => [⟨"âŒ Error: " ++ e⟩]
  else if name = "citrus_pests_diseases" then
    [⟨citrus_response kb⟩]
  else
    [⟨"âŒ Unknown tool: " ++ name⟩]

/-! Concrete fixtures used by the theorems below. -/

/-- The weather tool's schema as registered by `src/mcp_server.py`:
one required string parameter named city, no default. -/
def cSchema : InputSchema :=
  { properties := [("city", { type := some "string" })], required := ["city"] }

/-- The weather tool descriptor. -/
def cTool : Tool := { name := "get_current_weather", inputSchema := cSchema }

/-- A catalog whose first server discovered zero tools while the second holds
one tool (both servers connected successfully, as `initialize` records even
empty tool lists). -/
def c1Catalog : List (String × List Tool) := [("a", []), ("b", [cTool])]

/-- A one-server, one-tool catalog. -/
def agentCatalog : List (String × List Tool) := [("srv", [cTool])]

/-- A well-formed Decider selection naming a server and tool that exist in no
catalog used here. -/
def ghostSel : Selection := ⟨"ghost", "ghost_tool", "plausible rationale"⟩

/-- A string parameter with a city-like name, no default. -/
def cityParam : ParamInfo := { type := some "string" }

/-- An integer parameter with no default. -/
def intParam : ParamInfo := { type := some "integer" }

/-! Helper lemmas about the ordered-dict operations and the heuristic
extractor, shared by several claims. -/

theorem dictLookup_insert_self (d : List (String × JValue)) (k : String)
    (v : JValue) : dictLookup (dictInsert d k v) k = some v := by
  induction d with
  | nil => simp [dictInsert, dictLookup]
  | cons p rest ih =>
    by_cases h : p.1 = k
    · simp [dictInsert, dictLookup, h]
    · simp [dictInsert, dictLookup, h, ih]

theorem dictLookup_insert_ne (d : List (String × JValue)) (k name : String)
    (v : JValue) (h : k ≠ name) :
    dictLookup (dictInsert d k v) name = dictLookup d name := by
  induction d with
  | nil => simp [dictInsert, dictLookup, h]
  | cons p rest ih =>
    by_cases hp : p.1 = k
    · simp [dictInsert, dictLookup, hp, h]
    · simp [dictInsert, dictLookup, hp, ih]

theorem lookup_basicExtractOne_ne (msg : String)
    (args : List (String × JValue)) (k name : String) (i : ParamInfo)
    (h : k ≠ name) :
    dictLookup (basicExtractOne msg args (k, i)) name = dictLookup args name := by
  simp only [basicExtractOne]
  repeat' split
  all_goals simp [dictLookup_insert_ne _ _ _ _ h]

theorem lookup_basicExtractGo_ne (msg : String) (name : String) :
    ∀ (props : List (String × ParamInfo)) (args : List (String × JValue)),
      (∀ p ∈ props, p.1 ≠ name) →
      dictLookup (basicExtractGo msg args props) name = dictLookup args name := by
  intro props
  induction props with
  | nil => intro args _; rfl
  | cons p rest ih =>
    intro args h
    have hp : p.1 ≠ name := h p (List.mem_cons_self p rest)
    have hrest : ∀ q ∈ rest, q.1 ≠ name := fun q hq => h q (List.mem_cons_of_mem p hq)
    calc dictLookup (basicExtractGo msg (basicExtractOne msg args p) rest) name
        = dictLookup (basicExtractOne msg args p) name := ih _ hrest
      _ = dictLookup args name := by
          obtain ⟨k, i⟩ := p
          exact lookup_basicExtractOne_ne msg args k name i hp

theorem lookup_basicExtractOne_self (msg : String)
    (args : List (String × JValue)) (name : String) (info : ParamInfo)
    (hargs : dictLookup args name = none) :
    (dictLookup (basicExtractOne msg args (name, info)) name = none ↔
      (info.type ≠ some "string" ∧
        (info.type = some "integer" → pyFindIntLits msg = [] ∧ info.default = none))) := by
  by_cases hs : info.type = some "string"
  · have hval : dictLookup (basicExtractOne msg args (name, info)) name ≠ none := by
      simp only [basicExtractOne]
      rw [if_pos hs]
      repeat' split
      all_goals
        simp_all [dictContains, dictLookup_insert_self, hargs]
    constructor
    · intro hnone ; exact absurd hnone hval
    · intro hcontra ; exact absurd hs hcontra.1
  · by_cases hi : info.type = some "integer"
    · cases hnums : pyFindIntLits msg with
      | cons n ns =>
        have hval : dictLookup (basicExtractOne msg args (name, info)) name
            = some (JValue.jint (parseDigits n)) := by
          simp only [basicExtractOne]
          rw [if_neg hs, if_pos hi, hnums, dictLookup_insert_self]
        constructor
        · intro hnone ; rw [hval] at hnone ; exact Option.noConfusion hnone
        · intro hcontra
          exact List.noConfusion (hcontra.2 hi).1
      | nil =>
        cases hdef : info.default with
        | some d =>
          have hval : dictLookup (basicExtractOne msg args (name, info)) name
              = some d := by
            simp only [basicExtractOne]
            rw [if_neg hs, if_pos hi, hnums, hdef, dictLookup_insert_self]
          constructor
          · intro hnone ; rw [hval] at hnone ; exact Option.noConfusion hnone
          · intro hcontra
            exact Option.noConfusion (hcontra.2 hi).2
        | none =>
          have hval : basicExtractOne msg args (name, info) = args := by
            simp only [basicExtractOne]
            rw [if_neg hs, if_pos hi, hnums, hdef]
          constructor
          · intro _ ; exact ⟨hs, fun _ => ⟨rfl, rfl⟩⟩
          · intro _ ; rw [hval] ; exact hargs
    · have hval : basicExtractOne msg args (name, info) = args := by
        simp only [basicExtractOne]
        rw [if_neg hs, if_neg hi]
      constructor
      · intro _ ; exact ⟨hs, fun hcontra => absurd hcontra hi⟩
      · intro _ ; rw [hval] ; exact hargs

theorem lookup_basicExtractGo (msg : String) (name : String) (info : ParamInfo) :
    ∀ (props : List (String × ParamInfo)) (args : List (String × JValue)),
      (name, info) ∈ props → (props.map Prod.fst).Nodup →
      dictLookup args name = none →
      (dictLookup (basicExtractGo msg args props) name = none ↔
        (info.type ≠ some "string" ∧
          (info.type = some "integer" → pyFindIntLits msg = [] ∧ info.default = none))) := by
  intro props
  induction props with
  | nil => intro args hmem _ _; exact absurd hmem (List.not_mem_nil _)
  | cons p rest ih =>
    intro args hmem hnodup hargs
    have hnodup' := hnodup
    rw [List.map_cons, List.nodup_cons] at hnodup'
    rcases List.mem_cons.mp hmem with heq | hmem'
    · subst heq
      have hrest : ∀ q ∈ rest, q.1 ≠ name := by
        intro q hq hcontra
        have hmap : q.1 ∈ rest.map Prod.fst := List.mem_map_of_mem Prod.fst hq
        rw [hcontra] at hmap
        exact hnodup'.1 hmap
      show (dictLookup (basicExtractGo msg (basicExtractOne msg args (name, info)) rest) name = none ↔ _)
      rw [lookup_basicExtractGo_ne msg name rest _ hrest]
      exact lookup_basicExtractOne_self msg args name info hargs
    · have hne : p.1 ≠ name := by
        intro hcontra
        have hmap : (name, info).1 ∈ rest.map Prod.fst :=
          List.mem_map_of_mem Prod.fst hmem'
        rw [← hcontra] at hmap
        exact hnodup'.1 hmap
      have hargs' : dictLookup (basicExtractOne msg args p) name = none := by
        obtain ⟨k, i⟩ := p
        rw [lookup_basicExtractOne_ne msg args k name i hne]
        exact hargs
      exact ih _ hmem' hnodup'.2 hargs'

theorem discoverGo_all_tools :
    ∀ (servers : List (String × Except String (List Tool))) (st : DiscoveryState),
      (discoverGo st servers).all_tools = st.all_tools ++ successEntries servers := by
  intro servers
  induction servers with
  | nil => intro st; simp [discoverGo, successEntries]
  | cons p rest ih =>
    intro st
    obtain ⟨n, outcome⟩ := p
    cases outcome with
    | ok ts => simp [discoverGo, successEntries, ih]
    | error e => simp [discoverGo, successEntries, ih]

theorem discoverGo_failures :
    ∀ (servers : List (String × Except String (List Tool))) (st : DiscoveryState),
      (discoverGo st servers).failures = st.failures ++ failureEntries servers := by
  intro servers
  induction servers with
  | nil => intro st; simp [discoverGo, failureEntries]
  | cons p rest ih =>
    intro st
    obtain ⟨n, outcome⟩ := p
    cases outcome with
    | ok ts => simp [discoverGo, failureEntries, ih]
    | error e => simp [discoverGo, failureEntries, ih]

theorem discoverGo_total :
    ∀ (servers : List (String × Except String (List Tool))) (st : DiscoveryState),
      (discoverGo st servers).total_tools = st.total_tools + successToolCount servers := by
  intro servers
  induction servers with
  | nil => intro st; simp [discoverGo, successToolCount]
  | cons p rest ih =>
    intro st
    obtain ⟨n, outcome⟩ := p
    cases outcome with
    | ok ts => simp [discoverGo, successToolCount, ih] ; omega
    | error e => simp [discoverGo, successToolCount, ih]

theorem successEntries_append
    (xs ys : List (String × Except String (List Tool))) :
    successEntries (xs ++ ys) = successEntries xs ++ successEntries ys := by
  induction xs with
  | nil => rfl
  | cons p rest ih =>
    obtain ⟨n, outcome⟩ := p
    cases outcome with
    | ok ts => simp [successEntries, ih]
    | error e => simp [successEntries, ih]

theorem failureEntries_append
    (xs ys : List (String × Except String (List Tool))) :
    failureEntries (xs ++ ys) = failureEntries xs ++ failureEntries ys := by
  induction xs with
  | nil => rfl
  | cons p rest ih =>
    obtain ⟨n, outcome⟩ := p
    cases outcome with
    | ok ts => simp [failureEntries, ih]
    | error e => simp [failureEntries, ih]

theorem successToolCount_append
    (xs ys : List (String × Except String (List Tool))) :
    successToolCount (xs ++ ys) = successToolCount xs + successToolCount ys := by
  induction xs with
  | nil => simp [successToolCount]
  | cons p rest ih =>
    obtain ⟨n, outcome⟩ := p
    cases outcome with
    | ok ts => simp [successToolCount, ih] ; omega
    | error e => simp [successToolCount, ih]

/-- When the fallback can index the first server's first tool, `select_tool`
always yields a selection. -/
theorem select_tool_total (catalog : List (String × List Tool))
    (d : Except String Selection) (h : firstServerHasTool catalog = true) :
    ∃ sel : Selection, select_tool catalog d = Except.ok sel := by
  cases d with
  | ok sel => exact ⟨sel, rfl⟩
  | error e =>
    match catalog, h with
    | (s, t :: ts) :: rest, _ =>
      exact ⟨⟨s, t.name, "Fallback due to error: " ++ e⟩, rfl⟩

/-- Unfolding of `extract_arguments` once the schema lookup has succeeded. -/
theorem extract_arguments_found (catalog : List (String × List Tool))
    (msg toolName serverName : String) (schema : InputSchema)
    (d : Except String (List (String × JValue)))
    (hfound : findToolSchema catalog serverName toolName = some schema) :
    extract_arguments catalog msg toolName serverName d =
      if schema.properties = [] then []
      else
        match d with
        | Except.ok args => args
        | Except.error _ => basic_argument_extraction msg schema.properties := by
  unfold extract_arguments
  rw [hfound]

/-- Joining the text of items that have none yields the empty list. -/
theorem filterMap_text_none (l : List ContentItem)
    (hall : ∀ item ∈ l, item.text = none) :
    l.filterMap ContentItem.text = [] := by
  induction l with
  | nil => rfl
  | cons a rest ih =>
    have ha : a.text = none := hall a (List.mem_cons_self a rest)
    have hrest : ∀ item ∈ rest, item.text = none :=
      fun item hi => hall item (List.mem_cons_of_mem a hi)
    simp [List.filterMap_cons, ha, ih hrest]

/-! The claims. -/

/-- C1 is falsified on the code: the catalog below holds one discovered tool
(so it is a catalog "containing at least one discovered tool"), yet when the
Decider raises, the selection fallback indexes the first server's empty tool
list and the IndexError escapes `run` instead of being encoded into a
returned result. -/
theorem C1_counterexample :
    0 < catalogToolCount c1Catalog ∧
    run c1Catalog ["a", "b"]
        ⟨Except.error "llm down", Except.error "llm down"⟩
        (fun _ _ _ => Except.ok "hi") "hello"
      = Except.error "IndexError: list index out of range" := by
  decide

/-- C1 (amended): for every catalog whose first server holds at least one
discovered tool, every input text, every Decider behavior and every tool-call
outcome, `LLMPoweredMCPAgent.run` terminates and returns the dispatch result
object carrying response/server_used/tool_used/arguments_used/reasoning;
no exception escapes `run`, errors being encoded into the returned result. -/
theorem C1_amended_no_raise (catalog : List (String × List Tool))
    (clients : List String) (dec : DeciderBehavior)
    (call : String → String → List (String × JValue) → Except String String)
    (msg : String) (h : firstServerHasTool catalog = true) :
    ∃ r : DispatchResult, run catalog clients dec call msg = Except.ok r := by
  obtain ⟨sel, hsel⟩ := select_tool_total catalog dec.selectOutcome h
  unfold run
  rw [hsel]
  exact ⟨_, rfl⟩

/-- Witness for C1 at a concrete one-tool catalog with a failing Decider. -/
theorem C1_witness :
    firstServerHasTool [("b", [cTool])] = true ∧
    ∃ r : DispatchResult,
      run [("b", [cTool])] ["b"]
          ⟨Except.error "llm unreachable", Except.error "llm unreachable"⟩
          (fun _ _ _ => Except.ok "sunny") "weather in Paris"
        = Except.ok r :=
  ⟨by decide,
    C1_amended_no_raise [("b", [cTool])] ["b"]
      ⟨Except.error "llm unreachable", Except.error "llm unreachable"⟩
      (fun _ _ _ => Except.ok "sunny") "weather in Paris" (by decide)⟩

/-- C2 is falsified on the code: with an empty catalog there is no
RegistryEmptyError and no immediate errored result. When the Decider raises,
the fallback raises an uncaught IndexError out of `run` (first conjunct);
and when the Decider returns a selection, dispatch proceeds all the way to
the tool call — the call outcome is observable in the result, so a
connection attempt is made (second conjunct). -/
theorem C2_counterexample :
    (run [] ["w"] ⟨Except.error "llm down", Except.error "llm down"⟩
        (fun _ _ _ => Except.ok "t") "q"
      = Except.error "IndexError: list index out of range") ∧
    run [] ["w"] ⟨Except.ok ⟨"w", "t", "r"⟩, Except.error "e"⟩
        (fun _ _ _ => Except.ok "sunny") "q"
      ≠ run [] ["w"] ⟨Except.ok ⟨"w", "t", "r"⟩, Except.error "e"⟩
        (fun _ _ _ => Except.error "down") "q" := by
  decide

/-- C2 (amended): if the catalog is empty, the engine has no
RegistryEmptyError path. When the Decider's selection fails, the fallback
raises an uncaught IndexError out of `run` instead of producing an errored
result; when the Decider returns a selection, dispatch proceeds to the
execution step with that selection. -/
theorem C2_amended_empty_catalog (clients : List String) (e : String)
    (extractOutcome : Except String (List (String × JValue)))
    (call : String → String → List (String × JValue) → Except String String)
    (msg : String) :
    run [] clients ⟨Except.error e, extractOutcome⟩ call msg
      = Except.error "IndexError: list index out of range" ∧
    ∀ sel : Selection,
      run [] clients ⟨Except.ok sel, extractOutcome⟩ call msg
        = Except.ok
            { response := execute_tool clients
                (call sel.server sel.tool
                  (extract_arguments [] msg sel.tool sel.server extractOutcome))
                sel.server
              server_used := sel.server
              tool_used := sel.tool
              arguments_used :=
                extract_arguments [] msg sel.tool sel.server extractOutcome
              reasoning := sel.reasoning } :=
  ⟨rfl, fun _ => rfl⟩

/-- C3 is falsified on the code: a well-formed Decider selection naming a
server and tool absent from the catalog is returned verbatim by
`select_tool` — no post-condition validation against the catalog happens and
no fallback to the first descriptor occurs. -/
theorem C3_counterexample :
    select_tool agentCatalog (Except.ok ghostSel) = Except.ok ghostSel ∧
    (agentCatalog.map Prod.fst).contains ghostSel.server = false ∧
    (((agentCatalog.map Prod.snd).flatten).map Tool.name).contains ghostSel.tool
      = false ∧
    Except.ok ghostSel ≠ select_tool agentCatalog (Except.error "any") := by
  decide

/-- C3 (amended): the deterministic first-tool fallback (rationale prefixed
"Fallback due to error: ") is applied exactly when the Decider raises or its
structured output fails to parse; a selection that did parse is passed
through without validation, even when it names a server or tool absent from
the catalog. -/
theorem C3_amended_fallback (s : String) (t : Tool) (ts : List Tool)
    (rest : List (String × List Tool)) (e : String)
    (catalog : List (String × List Tool)) (sel : Selection) :
    select_tool ((s, t :: ts) :: rest) (Except.error e)
      = Except.ok ⟨s, t.name, "Fallback due to error: " ++ e⟩ ∧
    select_tool catalog (Except.ok sel) = Except.ok sel :=
  ⟨rfl, rfl⟩

/-- C4 (confirmed): a discovery pass over any configuration in which server K
fails records exactly one failure entry for K, keeps discovering the other
servers, stores exactly the successful servers' tool lists, and counts in
total the sum of the successful servers' tool counts. -/
theorem C4_registry_rebuild (pre post : List (String × Except String (List Tool)))
    (k e : String) :
    (discoverAllTools (pre ++ (k, Except.error e) :: post)).all_tools
        = successEntries pre ++ successEntries post ∧
    (discoverAllTools (pre ++ (k, Except.error e) :: post)).failures
        = failureEntries pre ++ (k ++ ": Failed - " ++ e) :: failureEntries post ∧
    (discoverAllTools (pre ++ (k, Except.error e) :: post)).total_tools
        = successToolCount pre + successToolCount post := by
  unfold discoverAllTools
  refine ⟨?_, ?_, ?_⟩
  · rw [discoverGo_all_tools, successEntries_append]
    simp [successEntries]
  · rw [discoverGo_failures, failureEntries_append]
    simp [failureEntries]
  · rw [discoverGo_total, successToolCount_append]
    simp [successToolCount]

/-- C5 (confirmed): when a tool call returns zero content items, the
connection surfaces the sentinel "No response from tool", which is not the
empty string. -/
theorem C5_empty_content_sentinel :
    call_tool_result_text [] = "No response from tool" ∧
    "No response from tool" ≠ "" := by
  decide

/-- C6 (confirmed): feeding the request "weather in Paris" through the
heuristic fallback extractor against the schema with the single required
string parameter city yields exactly the argument set mapping city to
"Paris". -/
theorem C6_city_roundtrip :
    basic_argument_extraction "weather in Paris" cSchema.properties
      = [("city", JValue.jstr "Paris")] := by
  decide

/-- C7 is falsified on the code: a required city string parameter with no
default whose value cannot be determined from the text ("hello there" holds
no preposition pattern and no city) is not omitted — the extractor fills in
the hardcoded value "London". -/
theorem C7_counterexample :
    cityParam.default = none ∧
    basic_argument_extraction "hello there" [("city", cityParam)]
      = [("city", JValue.jstr "London")] ∧
    dictContains (basic_argument_extraction "hello there" [("city", cityParam)])
      "city" = true := by
  decide

/-- C7 (amended): the heuristic fallback extractor never fails, and a
parameter is omitted from its output exactly when its declared type is not
string and, if it is integer, the text holds no whole-word integer literal
and the parameter declares no default. In particular string parameters are
never omitted (a city-like one falls back to the hardcoded "London").
Invocation is still attempted with exactly the extracted set — `run` passes
it to the execution step unchecked. -/
theorem C7_amended_omission (msg : String)
    (props : List (String × ParamInfo)) (name : String) (info : ParamInfo)
    (hmem : (name, info) ∈ props) (hnodup : (props.map Prod.fst).Nodup) :
    (dictLookup (basic_argument_extraction msg props) name = none ↔
      (info.type ≠ some "string" ∧
        (info.type = some "integer" →
          pyFindIntLits msg = [] ∧ info.default = none))) ∧
    ∀ (catalog : List (String × List Tool)) (clients : List String)
      (sel : Selection)
      (call : String → String → List (String × JValue) → Except String String)
      (eArgs : String),
      run catalog clients ⟨Except.ok sel, Except.error eArgs⟩ call msg
        = Except.ok
            { response := execute_tool clients
                (call sel.server sel.tool
                  (extract_arguments catalog msg sel.tool sel.server
                    (Except.error eArgs)))
                sel.server
              server_used := sel.server
              tool_used := sel.tool
              arguments_used :=
                extract_arguments catalog msg sel.tool sel.server
                  (Except.error eArgs)
              reasoning := sel.reasoning } :=
  ⟨lookup_basicExtractGo msg name info props [] hmem hnodup rfl,
    fun _ _ _ _ _ => rfl⟩

/-- Witness for C7 at a concrete integer parameter and a text with no
integer literal. -/
theorem C7_witness :
    dictLookup (basic_argument_extraction "no numbers here" [("limit", intParam)])
        "limit" = none ↔
      (intParam.type ≠ some "string" ∧
        (intParam.type = some "integer" →
          pyFindIntLits "no numbers here" = [] ∧ intParam.default = none)) :=
  (C7_amended_omission "no numbers here" [("limit", intParam)] "limit" intParam
    (by decide) (by decide)).1

/-- C8 is falsified on the code: a parsed Decider argument object is used
verbatim — the unknown key "bogus" is not dropped, and the missing required
key "city" (which has no default) does not trigger the heuristic fallback. -/
theorem C8_counterexample :
    extract_arguments agentCatalog "weather in Paris" "get_current_weather"
        "srv" (Except.ok [("bogus", JValue.jint 1)])
      = [("bogus", JValue.jint 1)] ∧
    (cSchema.properties.map Prod.fst).contains "bogus" = false ∧
    cSchema.required.contains "city" = true ∧
    dictContains [("bogus", JValue.jint 1)] "city" = false ∧
    [("bogus", JValue.jint 1)]
      ≠ basic_argument_extraction "weather in Paris" cSchema.properties := by
  decide

/-- C8 (amended): `extract_arguments` performs no validation of the Decider's
output against the schema: whenever the selected tool's schema is found and
has properties, a parsed argument object is returned verbatim (unknown keys
kept, missing required keys ignored), and the local heuristic fallback runs
exactly when the Decider raised or its output failed to parse. -/
theorem C8_amended_no_validation (catalog : List (String × List Tool))
    (msg toolName serverName : String) (schema : InputSchema)
    (args : List (String × JValue)) (e : String)
    (hfound : findToolSchema catalog serverName toolName = some schema)
    (hne : schema.properties ≠ []) :
    extract_arguments catalog msg toolName serverName (Except.ok args) = args ∧
    extract_arguments catalog msg toolName serverName (Except.error e)
      = basic_argument_extraction msg schema.properties := by
  constructor
  · rw [extract_arguments_found catalog msg toolName serverName schema _ hfound,
      if_neg hne]
  · rw [extract_arguments_found catalog msg toolName serverName schema _ hfound,
      if_neg hne]

/-- Witness for C8 at the concrete one-tool catalog. -/
theorem C8_witness :
    extract_arguments agentCatalog "weather in Paris" "get_current_weather"
        "srv" (Except.ok [("bogus", JValue.jint 1)])
      = [("bogus", JValue.jint 1)] ∧
    extract_arguments agentCatalog "weather in Paris" "get_current_weather"
        "srv" (Except.error "llm down")
      = basic_argument_extraction "weather in Paris" cSchema.properties :=
  C8_amended_no_validation agentCatalog "weather in Paris"
    "get_current_weather" "srv" cSchema [("bogus", JValue.jint 1)] "llm down"
    (by decide) (by decide)

/-- C9 (confirmed): a non-empty content list whose items all lack a text
attribute yields the empty string, not the "No response from tool" sentinel;
on any non-empty content the join branch runs (non-text items silently
dropped), so the sentinel arises only from the empty content branch. -/
theorem C9_nontext_content (content : List ContentItem) (h : content ≠ [])
    (hall : ∀ item ∈ content, item.text = none) :
    call_tool_result_text content = "" ∧
    call_tool_result_text content ≠ "No response from tool" ∧
    call_tool_result_text content
      = pyJoin "\n" (content.filterMap ContentItem.text) := by
  have hempty : content.isEmpty = false := by
    cases content with
    | nil => exact absurd rfl h
    | cons a rest => rfl
  have hbranch : call_tool_result_text content
      = pyJoin "\n" (content.filterMap ContentItem.text) := by
    unfold call_tool_result_text
    rw [hempty]
    rfl
  have h₁ : call_tool_result_text content = "" := by
    rw [hbranch, filterMap_text_none content hall]
    rfl
  exact ⟨h₁, by rw [h₁] ; decide, hbranch⟩

/-- Witness for C9 at a singleton content list with a text-less item. -/
theorem C9_witness :
    call_tool_result_text [⟨none⟩] = "" ∧
    call_tool_result_text [⟨none⟩] ≠ "No response from tool" ∧
    call_tool_result_text [⟨none⟩]
      = pyJoin "\n"
          (([⟨none⟩] : List ContentItem).filterMap ContentItem.text) :=
  C9_nontext_content [⟨none⟩] (by decide) (by decide)

/-- C10 is falsified as stated: the weather server's unknown-tool response is
a successful single text item, but its text is prefixed with the file's
(mojibake) error-mark characters, so it does not read exactly
"Unknown tool: name". -/
theorem C10_counterexample :
    weather_server_call_tool (Except.ok "w") (Except.ok "p") "kb-text"
        "bogus_tool" []
      = [⟨"âŒ Unknown tool: bogus_tool"⟩] ∧
    "âŒ Unknown tool: bogus_tool" ≠ "Unknown tool: bogus_tool" ∧
    weatherServerToolNames.contains "bogus_tool" = false := by
  decide

/-- C10 (amended): for every tool name outside a server's registered tools,
both servers' call_tool handlers return (rather than raise) a successful
single-item text response: "Unknown tool: name" from the agricultural
server, and the same message behind the weather server's error-mark prefix. -/
theorem C10_amended_unknown_tool (name : String)
    (args args₂ : List (String × JValue)) (wo po wo₂ po₂ : Except String String)
    (kb : String) (h₁ : name ∉ mcpServerToolNames)
    (h₂ : name ∉ weatherServerToolNames) :
    mcp_server_call_tool wo po name args = [⟨"Unknown tool: " ++ name⟩] ∧
    weather_server_call_tool wo₂ po₂ kb name args₂
      = [⟨"âŒ Unknown tool: " ++ name⟩] := by
  simp only [mcpServerToolNames, weatherServerToolNames, List.mem_cons,
    List.not_mem_nil, or_false, not_or] at h₁ h₂
  obtain ⟨ha, hb, hc⟩ := h₁
  obtain ⟨hd, he, hf⟩ := h₂
  constructor
  · unfold mcp_server_call_tool
    rw [if_neg ha, if_neg hb, if_neg hc]
  · unfold weather_server_call_tool
    rw [if_neg hd, if_neg he, if_neg hf]

/-- Witness for C10 at a concrete unregistered tool name. -/
theorem C10_witness :
    mcp_server_call_tool (Except.ok "w") (Except.ok "p") "nonexistent" []
      = [⟨"Unknown tool: nonexistent"⟩] ∧
    weather_server_call_tool (Except.ok "w") (Except.ok "p") "kb" "nonexistent" []
      = [⟨"âŒ Unknown tool: nonexistent"⟩] :=
  C10_amended_unknown_tool "nonexistent" [] [] (Except.ok "w") (Except.ok "p")
    (Except.ok "w") (Except.ok "p") "kb" (by decide) (by decide)

end MCPAgent
